import Mathlib

/-!
Verification of the translation-workflow demo (`Agentic_rag/langgraph_L/demo.py`).

The program is a LangGraph state machine over a `TranslationState` TypedDict
(`total=False`, so every key may be absent).  Each graph node receives the
current state and returns a partial update dict; LangGraph merges the update
into the state key-by-key (a key present in the update overwrites).

We embed:
  * the state as a structure of `Option`-valued fields, with `mergeState`
    for the LangGraph merge;
  * Python string primitives used by the code (`str.strip`, `str.lower`,
    substring `in`) as executable Lean functions;
  * `json.loads` results as a `PyJson` value (the external `json` module's
    parse outcome is passed as an `Option PyJson` oracle parameter:
    `none` models a `json.loads` exception, `some v` a successful parse);
  * every call to the external chat model as an oracle parameter (the
    code only ever uses the `.content` string of the response);
  * each graph node (`intent_node`, `_translate`, `eval_node`) and router
    (`route_after_eval`) as a function returning `Option` (a `none` models
    a Python `KeyError`/`AttributeError` escaping the node);
  * the eval→translate cycle of the compiled graph as a fuel-indexed loop
    `runLoop` that also counts Translator invocations.
-/

/-! ### Python string primitives -/

/-- The Unicode code points for which Python's `str.isspace` is true; this is
the character class stripped by `str.strip()` with no arguments. -/
def isPyWs (c : Char) : Bool :=
  (0x09 ≤ c.val && c.val ≤ 0x0d) || c.val = 0x20 ||
  (0x1c ≤ c.val && c.val ≤ 0x1f) || c.val = 0x85 || c.val = 0xa0 ||
  c.val = 0x1680 || (0x2000 ≤ c.val && c.val ≤ 0x200a) ||
  c.val = 0x2028 || c.val = 0x2029 || c.val = 0x202f || c.val = 0x205f ||
  c.val = 0x3000

/-- Python `str.strip()`: remove leading and trailing whitespace. -/
def pyStrip (s : String) : String :=
  ⟨((s.data.dropWhile isPyWs).reverse.dropWhile isPyWs).reverse⟩

/-- Python `str.lower()`, restricted to the ASCII and Latin-1 letter ranges
(identity elsewhere).  This covers every character class exercised by the
program's keyword table and language codes: `A`-`Z`, and `À`-`Þ` except `×`
(so `Ç ↦ ç` as in `FRANÇAIS ↦ français`); CJK and kana characters, like all
characters outside these ranges, are unchanged, as in Python. -/
def pyToLower (c : Char) : Char :=
  if 0x41 ≤ c.val && c.val ≤ 0x5a then Char.ofNat (c.toNat + 32)
  else if 0xc0 ≤ c.val && c.val ≤ 0xde && c.val ≠ 0xd7 then Char.ofNat (c.toNat + 32)
  else c

/-- Python `str.lower()` on a whole string. -/
def pyLower (s : String) : String := ⟨s.data.map pyToLower⟩

/-- Python substring membership `pat in s`. -/
def strContains (s pat : String) : Bool :=
  (List.range (s.data.length + 1)).any (fun i => pat.data.isPrefixOf (s.data.drop i))

/-! ### Python JSON values (`json.loads` results) -/

/-- A value produced by Python's `json.loads`.  `obj` carries the dict's
key/value pairs (keys unique, first lookup wins).  JSON floats are not
needed by any property and are omitted from the model. -/
inductive PyJson where
  | null : PyJson
  | bool (b : Bool) : PyJson
  | int (n : Int) : PyJson
  | str (s : String) : PyJson
  | arr (xs : List PyJson) : PyJson
  | obj (kvs : List (String × PyJson)) : PyJson

/-- Python `dict.get(k)` on the pairs of a parsed JSON object. -/
def jsonGet (k : String) : List (String × PyJson) → Option PyJson
  | [] => none
  | (k', v) :: rest => if k' = k then some v else jsonGet k rest

/-- Python truthiness `bool(x)` of a JSON value: `None`, `False`, `0`, `""`,
`[]`, `{}` are falsy, everything else truthy. -/
def pyBool : PyJson → Bool
  | PyJson.null => false
  | PyJson.bool b => b
  | PyJson.int n => n ≠ 0
  | PyJson.str s => s ≠ ""
  | PyJson.arr xs => !xs.isEmpty
  | PyJson.obj kvs => !kvs.isEmpty

/-- Python `repr` of a string, as used inside `str(list)`/`str(dict)`:
single-quoted, double-quoted when the text holds a single quote but no
double quote (escaping of exotic characters is elided: no program property
evaluates `str()` on containers). -/
def pyReprStr (s : String) : String :=
  let sq := String.singleton (Char.ofNat 39)
  let dq := String.singleton (Char.ofNat 34)
  if strContains s sq && !strContains s dq then dq ++ s ++ dq else sq ++ s ++ sq

mutual

/-- Python `repr` of a JSON value. -/
def pyRepr : PyJson → String
  | PyJson.null => "None"
  | PyJson.bool b => if b then "True" else "False"
  | PyJson.int n => toString n
  | PyJson.str s => pyReprStr s
  | PyJson.arr xs => "[" ++ pyReprList xs ++ "]"
  | PyJson.obj kvs => "\x7b" ++ pyReprPairs kvs ++ "\x7d"

/-- Comma-separated `repr`s of the elements of a Python list. -/
def pyReprList : List PyJson → String
  | [] => ""
  | [x] => pyRepr x
  | x :: xs => pyRepr x ++ ", " ++ pyReprList xs

/-- Comma-separated `repr(k): repr(v)` items of a Python dict. -/
def pyReprPairs : List (String × PyJson) → String
  | [] => ""
  | [(k, v)] => pyReprStr k ++ ": " ++ pyRepr v
  | (k, v) :: kvs => pyReprStr k ++ ": " ++ pyRepr v ++ ", " ++ pyReprPairs kvs

end

/-- Python `str(x)` of a JSON value (containers print via `repr` of their
elements, as in Python). -/
def pyStr : PyJson → String
  | PyJson.null => "None"
  | PyJson.bool b => if b then "True" else "False"
  | PyJson.int n => toString n
  | PyJson.str s => s
  | PyJson.arr xs => "[" ++ pyReprList xs ++ "]"
  | PyJson.obj kvs => "\x7b" ++ pyReprPairs kvs ++ "\x7d"

/-! ### The session state (`TranslationState`, a `total=False` TypedDict) -/

/-- `TranslationState`: every key may be absent (`none`).  `attempts` and
`max_attempts` are Python ints. -/
structure TranslationState where
  query : Option String := none
  source_text : Option String := none
  target_lang : Option String := none
  translation : Option String := none
  evaluation_ok : Option Bool := none
  evaluation_feedback : Option String := none
  attempts : Option Int := none
  max_attempts : Option Int := none
deriving DecidableEq

/-- LangGraph's state update: each key present in the node's returned dict
`u` overwrites the stored state `s`; absent keys keep their old value. -/
def mergeState (s u : TranslationState) : TranslationState where
  query := match u.query with | some v => some v | none => s.query
  source_text := match u.source_text with | some v => some v | none => s.source_text
  target_lang := match u.target_lang with | some v => some v | none => s.target_lang
  translation := match u.translation with | some v => some v | none => s.translation
  evaluation_ok := match u.evaluation_ok with | some v => some v | none => s.evaluation_ok
  evaluation_feedback := match u.evaluation_feedback with | some v => some v | none => s.evaluation_feedback
  attempts := match u.attempts with | some v => some v | none => s.attempts
  max_attempts := match u.max_attempts with | some v => some v | none => s.max_attempts

/-! ### `_detect_target_lang_rule` and `intent_node` -/

/-- The French row of the keyword table: `"法语" in query or "法文" in query
or "french" in q or "français" in q`, with `q = query.lower()`. -/
def frMatch (query : String) : Bool :=
  strContains query "法语" || strContains query "法文" ||
  strContains (pyLower query) "french" || strContains (pyLower query) "français"

/-- The Japanese row of the keyword table: `"日语" in query or "日文" in query
or "japanese" in q or "にほんご" in q`. -/
def jaMatch (query : String) : Bool :=
  strContains query "日语" || strContains query "日文" ||
  strContains (pyLower query) "japanese" || strContains (pyLower query) "にほんご"

/-- The English row of the keyword table: `"英语" in query or "英文" in query
or "english" in q`. -/
def enMatch (query : String) : Bool :=
  strContains query "英语" || strContains query "英文" ||
  strContains (pyLower query) "english"

/-- `_detect_target_lang_rule`: keyword rules in priority order French,
Japanese, English; `none` when no rule fires. -/
def _detect_target_lang_rule (query : String) : Option String :=
  if frMatch query then some "fr"
  else if jaMatch query then some "ja"
  else if enMatch query then some "en"
  else none

/-- The target-language computation of `intent_node`: the keyword rule if one
fires, else the fallback classification call whose response content is
`fallbackResp`; the response is normalized by `.strip().lower()` and replaced
by `"en"` when not one of the three codes. -/
def intentTargetLang (query : String) (fallbackResp : String) : String :=
  match _detect_target_lang_rule query with
  | some rule => rule
  | none =>
    let resp := pyLower (pyStrip fallbackResp)
    if ¬(resp = "en" ∨ resp = "ja" ∨ resp = "fr") then "en" else resp

/-- `intent_node`: reads `state["query"]` (a `KeyError` when absent models as
`none`), classifies the target language (`fallbackResp` is the classifier
model's response content, unused when a keyword rule fires), extracts the
source text (`extractResp` is the extraction model's response content), and
returns the node's update dict. -/
def intent_node (s : TranslationState) (fallbackResp extractResp : String) :
    Option TranslationState :=
  match s.query with
  | none => none
  | some query =>
    some { target_lang := some (intentTargetLang query fallbackResp)
           source_text := some (pyStrip extractResp)
           attempts := some (s.attempts.getD 0)
           max_attempts := some (s.max_attempts.getD 3)
           evaluation_ok := some false
           evaluation_feedback := some "" }

/-! ### `_translate` and the three translate nodes -/

/-- The `user_content` prompt built by `_translate`: the revise-and-incorporate
shape when the stripped feedback is non-empty (Python truthiness of the
string), the first-pass shape otherwise. -/
def translateUserContent (source_text target_lang feedback : String) : String :=
  if feedback ≠ "" then
    "Text:\n" ++ source_text ++ "\n\nTarget language: " ++ target_lang ++
      "\n\nRevise using this feedback:\n" ++ feedback ++ "\n\nOutput only the translation."
  else
    "Text:\n" ++ source_text ++ "\n\nTarget language: " ++ target_lang ++
      "\n\nOutput only the translation."

/-- `_translate`: reads `state["source_text"]` (`KeyError` models as `none`),
strips the stored feedback, builds the prompt, sends it to the translation
model (`model : String → String` maps the prompt to the response content),
and returns the update dict `{"translation": ..., "attempts": attempts+1}`. -/
def _translate (s : TranslationState) (target_lang : String) (model : String → String) :
    Option TranslationState :=
  match s.source_text with
  | none => none
  | some source_text =>
    let feedback := pyStrip (s.evaluation_feedback.getD "")
    let user_content := translateUserContent source_text target_lang feedback
    let attempts := s.attempts.getD 0 + 1
    some { translation := some (pyStrip (model user_content))
           attempts := some attempts }

/-- The prompt that `_translate` would send for state `s` and language label
`target_lang` (exposed for the prompt-shape properties). -/
def translatePrompt (s : TranslationState) (target_lang : String) : Option String :=
  s.source_text.map (fun src =>
    translateUserContent src target_lang (pyStrip (s.evaluation_feedback.getD "")))

/-- The conditional-edge table after `intent`/`eval`: language code to the
label its translate node passes to `_translate` (`translate_en_node` uses
"English", etc.); `none` for a code outside the table (a LangGraph routing
error). -/
def nodeLabel : String → Option String
  | "en" => some "English"
  | "ja" => some "Japanese"
  | "fr" => some "French"
  | _ => none

/-! ### `eval_node` -/

/-- The acceptance flag computed by `eval_node`'s try-block from the
`json.loads` outcome: `bool(data.get("ok", False))` when the parse produced a
dict; the `except` branch (parse failure, or `.get` on a non-dict raising
`AttributeError`) yields `False`. -/
def evalVerdict : Option PyJson → Bool
  | some (PyJson.obj kvs) => pyBool ((jsonGet "ok" kvs).getD (PyJson.bool false))
  | _ => false

/-- The feedback string computed by `eval_node` from the stripped response
`resp` and the `json.loads` outcome: `str(data.get("feedback", "")).strip()`
when the parse produced a dict, else the parse-failure message embedding the
raw response. -/
def evalFeedback (resp : String) : Option PyJson → String
  | some (PyJson.obj kvs) => pyStrip (pyStr ((jsonGet "feedback" kvs).getD (PyJson.str "")))
  | _ => "Evaluator output was not valid JSON: " ++ resp

/-- `eval_node`: reads `state["source_text"]`, `state["target_lang"]`,
`state["translation"]` (a `KeyError` models as `none`), strips the evaluator
model's response content `rawResp`, and parses it with `json.loads` — the
parse outcome is the oracle parameter `parsed` (`none` = the call raised).
The try/except never escapes: the node always returns the update dict
`{"evaluation_ok": ..., "evaluation_feedback": ...}`. -/
def eval_node (s : TranslationState) (rawResp : String) (parsed : Option PyJson) :
    Option TranslationState :=
  match s.source_text, s.target_lang, s.translation with
  | some _, some _, some _ =>
    let resp := pyStrip rawResp
    some { evaluation_ok := some (evalVerdict parsed)
           evaluation_feedback := some (evalFeedback resp parsed) }
  | _, _, _ => none

/-! ### Routers and the compiled graph's retry loop -/

/-- `route_after_intent`: returns `state["target_lang"]` (`KeyError` as
`none`). -/
def route_after_intent (s : TranslationState) : Option String :=
  s.target_lang

/-- `route_after_eval`: `"end"` when `state.get("evaluation_ok")` is truthy or
`attempts >= max_attempts` (defaults 0 and 3), else `state["target_lang"]`
(`KeyError` as `none`). -/
def route_after_eval (s : TranslationState) : Option String :=
  if s.evaluation_ok.getD false then some "end"
  else if s.max_attempts.getD 3 ≤ s.attempts.getD 0 then some "end"
  else s.target_lang

/-- The external model's responses for the retry loop, one per cycle index:
`trans k prompt` is the translation model's content for the prompt sent in
cycle `k`; `evalRaw k` is the evaluator model's content in cycle `k`, and
`evalParsed k` stands for `json.loads(evalRaw k |>.strip())` (`none` when
that call raises). -/
structure Oracle where
  trans : Nat → String → String
  evalRaw : Nat → String
  evalParsed : Nat → Option PyJson

/-- One translate→eval cycle of the compiled graph starting at a translate
node: route the state's language code through the edge table, run the
translate node, merge its update, run `eval_node`, merge its update. -/
def runCycle (o : Oracle) (k : Nat) (s : TranslationState) : Option TranslationState :=
  match s.target_lang with
  | none => none
  | some code =>
    match nodeLabel code with
    | none => none
    | some label =>
      match _translate s label (o.trans k) with
      | none => none
      | some u1 =>
        let s1 := mergeState s u1
        match eval_node s1 (o.evalRaw k) (o.evalParsed k) with
        | none => none
        | some u2 => some (mergeState s1 u2)

/-- The compiled graph's cycle between the translate nodes and `eval`,
starting at cycle index `k`: run one cycle, apply `route_after_eval`, stop at
`"end"` (the edge to `END`) or loop back to the routed translate node.
Returns the final state and the number of Translator invocations performed;
`fuel` bounds the recursion (`none` when it runs out or a node fails). -/
def runLoop (o : Oracle) (fuel : Nat) (k : Nat) (s : TranslationState) :
    Option (TranslationState × Nat) :=
  match fuel with
  | 0 => none
  | fuel' + 1 =>
    match runCycle o k s with
    | none => none
    | some s2 =>
      match route_after_eval s2 with
      | none => none
      | some r =>
        if r = "end" then some (s2, 1)
        else
          match runLoop o fuel' (k + 1) s2 with
          | none => none
          | some (t, m) => some (t, m + 1)

/-- A whole session as the compiled graph runs it on
`{"query": query, "attempts": 0, "max_attempts": maxAttempts}`: `intent_node`,
merge, then the retry loop from cycle 0. -/
def runSession (o : Oracle) (fallbackResp extractResp : String)
    (query : String) (maxAttempts : Int) (fuel : Nat) :
    Option (TranslationState × Nat) :=
  let s0 : TranslationState :=
    { query := some query, attempts := some 0, max_attempts := some maxAttempts }
  match intent_node s0 fallbackResp extractResp with
  | none => none
  | some u => runLoop o fuel 0 (mergeState s0 u)

/-! ### Concrete states, updates and oracles used by the examples below -/

/-- An always-rejecting model: translations come back as `" Bonjour "`, the
evaluator's content parses to `{"ok": false, "feedback": " fix tone "}`. -/
def oRej : Oracle where
  trans := fun _ _ => " Bonjour "
  evalRaw := fun _ => "nope"
  evalParsed := fun _ =>
    some (PyJson.obj [("ok", PyJson.bool false), ("feedback", PyJson.str " fix tone ")])

/-- A state holding every key `eval_node` reads. -/
def sW : TranslationState :=
  { source_text := some "hi", target_lang := some "fr", translation := some "Bonjour",
    evaluation_ok := some false, evaluation_feedback := some "old",
    attempts := some 1, max_attempts := some 3 }

/-- The entry-point state of a session on query `"hello"`, before `intent`,
with no `attempts`/`max_attempts` supplied. -/
def sW7 : TranslationState := { query := some "hello" }

/-- The update `intent_node` returns on `sW7` with classifier content
`"resp"` (no keyword rule fires and `"resp"` is not a code) and extractor
content `"extracted"`. -/
def uW7 : TranslationState :=
  { source_text := some "extracted", target_lang := some "en",
    evaluation_ok := some false, evaluation_feedback := some "",
    attempts := some 0, max_attempts := some 3 }

/-- The state entering the first translate node of a French session with
`max_attempts = 3`. -/
def sIni : TranslationState :=
  { source_text := some "hi", target_lang := some "fr",
    evaluation_ok := some false, evaluation_feedback := some "",
    attempts := some 0, max_attempts := some 3 }

/-- The update `_translate` returns on `sIni` under `oRej`. -/
def uW1 : TranslationState := { translation := some "Bonjour", attempts := some 1 }

/-- The final state of `runLoop oRej` from `sIni`: three rejected attempts. -/
def tW1 : TranslationState :=
  { source_text := some "hi", target_lang := some "fr", translation := some "Bonjour",
    evaluation_ok := some false, evaluation_feedback := some "fix tone",
    attempts := some 3, max_attempts := some 3 }

/-- Like `sIni` but with `max_attempts = 0`. -/
def sC1 : TranslationState :=
  { source_text := some "hi", target_lang := some "fr",
    evaluation_ok := some false, evaluation_feedback := some "",
    attempts := some 0, max_attempts := some 0 }

/-- The final state of `runLoop oRej` from `sC1`: one full cycle runs even
though `max_attempts` is 0. -/
def tC1 : TranslationState :=
  { source_text := some "hi", target_lang := some "fr", translation := some "Bonjour",
    evaluation_ok := some false, evaluation_feedback := some "fix tone",
    attempts := some 1, max_attempts := some 0 }

/-- A state whose stored feedback is whitespace-only. -/
def sW8 : TranslationState :=
  { source_text := some "hi", evaluation_feedback := some " \t ", attempts := some 0 }

/-- The update `eval_node` returns when the parsed response is
`{"ok": "no", "feedback": "bad"}`: the non-boolean flag is truthy. -/
def uC2 : TranslationState :=
  { evaluation_ok := some true, evaluation_feedback := some "bad" }

/-- The update `eval_node` returns when the parsed response is
`{"ok": true, "feedback": "nice"}`. -/
def uC3 : TranslationState :=
  { evaluation_ok := some true, evaluation_feedback := some "nice" }

/-- A mid-session state carrying stale feedback from an earlier cycle. -/
def sC6 : TranslationState :=
  { source_text := some "hi", target_lang := some "fr",
    evaluation_ok := some false, evaluation_feedback := some "old stale",
    attempts := some 0, max_attempts := some 3 }

/-- The update `_translate` returns on `sC6` under `oRej`. -/
def u1C6 : TranslationState := { translation := some "Bonjour", attempts := some 1 }

/-- The update `eval_node` returns under `oRej` in cycle 0. -/
def u2C6 : TranslationState :=
  { evaluation_ok := some false, evaluation_feedback := some "fix tone" }

/-- True when a `json.loads` outcome is not a successfully parsed dict, i.e.
exactly when `eval_node`'s `except` branch runs (`json.loads` raised, or
`data.get` raised `AttributeError` on a non-dict). -/
def notTopObj : Option PyJson → Bool
  | some (PyJson.obj _) => false
  | _ => true

/-! ### Helper lemmas -/

/-- Stripping a string made of whitespace only yields the empty string. -/
theorem pyStrip_of_all_ws (s : String) (h : s.data.all isPyWs = true) :
    pyStrip s = "" := by
  unfold pyStrip
  have h1 : s.data.dropWhile isPyWs = [] :=
    List.dropWhile_eq_nil_iff.mpr (fun x hx => List.all_eq_true.mp h x hx)
  rw [h1]
  rfl

/-- A string contains its own right append part as a substring. -/
theorem strContains_append_self (p r : String) : strContains (p ++ r) r = true := by
  unfold strContains
  rw [List.any_eq_true]
  refine ⟨p.data.length, List.mem_range.mpr ?_, ?_⟩
  · rw [String.data_append, List.length_append]
    omega
  · rw [String.data_append, List.drop_left]
    simp [ List.isPrefixOf_iff_prefix]

/-! ### The claims -/

/-- C4: a query containing a keyword of the fixed rule table makes the
Classifier return the code of the first-matching language in priority order
French, Japanese, English (`frMatch`/`jaMatch`/`enMatch` are the table's
rows: native-script keywords matched case-sensitively against the query,
Latin-script keywords against the lowercased query), and the result does not
depend on the fallback model's response. -/
theorem C4_keyword_rule_priority (q r₁ r₂ : String)
    (h : frMatch q = true ∨ jaMatch q = true ∨ enMatch q = true) :
    _detect_target_lang_rule q =
      some (if frMatch q then "fr" else if jaMatch q then "ja" else "en") ∧
    intentTargetLang q r₁ = (if frMatch q then "fr" else if jaMatch q then "ja" else "en") ∧
    intentTargetLang q r₁ = intentTargetLang q r₂ := by
  by_cases hf : frMatch q <;> by_cases hj : jaMatch q <;> by_cases he : enMatch q <;>
    simp [_detect_target_lang_rule, intentTargetLang, hf, hj, he] at h ⊢

/-- C4 witness: `"Translate into FRENCH"` matches the French row
case-insensitively and classifies as `fr` for any fallback content. -/
theorem C4_keyword_rule_priority_witness :
    (frMatch "Translate into FRENCH" = true ∨ jaMatch "Translate into FRENCH" = true ∨
      enMatch "Translate into FRENCH" = true) ∧
    (_detect_target_lang_rule "Translate into FRENCH" =
      some (if frMatch "Translate into FRENCH" then "fr"
            else if jaMatch "Translate into FRENCH" then "ja" else "en") ∧
    intentTargetLang "Translate into FRENCH" "zz" =
      (if frMatch "Translate into FRENCH" then "fr"
       else if jaMatch "Translate into FRENCH" then "ja" else "en") ∧
    intentTargetLang "Translate into FRENCH" "zz" = intentTargetLang "Translate into FRENCH" "ja") :=
  ⟨Or.inl rfl, C4_keyword_rule_priority "Translate into FRENCH" "zz" "ja" (Or.inl rfl)⟩

/-- C5: the Classifier is total — for every query and fallback content it
returns one of exactly `en`, `ja`, `fr` — and when no keyword rule matches
and the normalized fallback content is not one of the three codes it
returns `en`. -/
theorem C5_classifier_totality (q r : String) :
    (intentTargetLang q r = "en" ∨ intentTargetLang q r = "ja" ∨ intentTargetLang q r = "fr") ∧
    (_detect_target_lang_rule q = none →
      pyLower (pyStrip r) ≠ "en" → pyLower (pyStrip r) ≠ "ja" → pyLower (pyStrip r) ≠ "fr" →
      intentTargetLang q r = "en") := by
  constructor
  · unfold intentTargetLang _detect_target_lang_rule
    by_cases hf : frMatch q <;> by_cases hj : jaMatch q <;> by_cases he : enMatch q <;>
      simp [hf, hj, he] <;> (split <;> simp_all) <;> tauto
  · intro hr h1 h2 h3
    unfold intentTargetLang
    rw [hr]
    simp [h1, h2, h3]

/-- C5 witness: a keyword-free query with an invalid fallback content
defaults to English. -/
theorem C5_classifier_totality_witness :
    intentTargetLang "hello there" "quux" = "en" :=
  (C5_classifier_totality "hello there" "quux").2 rfl (by decide) (by decide) (by decide)

/-- C10: the fallback path depends on the model's content only through
`.strip().lower()`, so two contents with the same normalization — e.g.
differing only in letter case or surrounding whitespace — classify every
query identically. -/
theorem C10_fallback_normalized (q r₁ r₂ : String)
    (h : pyLower (pyStrip r₁) = pyLower (pyStrip r₂)) :
    intentTargetLang q r₁ = intentTargetLang q r₂ := by
  unfold intentTargetLang
  cases _detect_target_lang_rule q <;> simp [h]

/-- C10 witness: `"EN"` and `" en "` classify alike. -/
theorem C10_fallback_normalized_witness :
    pyLower (pyStrip "EN") = pyLower (pyStrip " en ") ∧
    intentTargetLang "hola" "EN" = intentTargetLang "hola" " en " :=
  ⟨rfl, C10_fallback_normalized "hola" "EN" " en " rfl⟩

/-- C7: the intent step sets `target_lang` to the Classifier's output and
produces a merged state with `evaluation_ok = false`, empty feedback, the
extracted source text, and `attempts = 0`, `max_attempts = 3` when the
incoming state does not supply them. -/
theorem C7_intent_resets (s u : TranslationState) (q fb ex : String)
    (hq : s.query = some q) (ha : s.attempts = none) (hm : s.max_attempts = none)
    (hu : intent_node s fb ex = some u) :
    (mergeState s u).target_lang = some (intentTargetLang q fb) ∧
    (mergeState s u).evaluation_ok = some false ∧
    (mergeState s u).evaluation_feedback = some "" ∧
    (mergeState s u).attempts = some 0 ∧
    (mergeState s u).max_attempts = some 3 ∧
    (mergeState s u).source_text = some (pyStrip ex) := by
  unfold intent_node at hu
  rw [hq] at hu
  simp only [Option.some.injEq] at hu
  subst hu
  simp [mergeState, ha, hm]

/-- C7 witness: the session entry state on query `"hello"`. -/
theorem C7_intent_resets_witness :
    intent_node sW7 "resp" "extracted" = some uW7 ∧
    ((mergeState sW7 uW7).target_lang = some (intentTargetLang "hello" "resp") ∧
     (mergeState sW7 uW7).evaluation_ok = some false ∧
     (mergeState sW7 uW7).evaluation_feedback = some "" ∧
     (mergeState sW7 uW7).attempts = some 0 ∧
     (mergeState sW7 uW7).max_attempts = some 3 ∧
     (mergeState sW7 uW7).source_text = some (pyStrip "extracted")) :=
  ⟨rfl, C7_intent_resets sW7 uW7 "hello" "resp" "extracted" rfl rfl rfl rfl⟩

/-- C8: a stored feedback that is absent, empty, or whitespace-only strips to
the empty string, so `_translate` builds the first-pass prompt shape and
behaves exactly as if no feedback were present. -/
theorem C8_whitespace_feedback_first_pass (s : TranslationState) (src tl : String)
    (f : String → String)
    (hsrc : s.source_text = some src)
    (hws : (s.evaluation_feedback.getD "").data.all isPyWs = true) :
    translatePrompt s tl = some (translateUserContent src tl "") ∧
    _translate s tl f = _translate { s with evaluation_feedback := none } tl f ∧
    _translate s tl f =
      some { translation := some (pyStrip (f (translateUserContent src tl "")))
             attempts := some (s.attempts.getD 0 + 1) } := by
  have hstrip : pyStrip (s.evaluation_feedback.getD "") = "" := pyStrip_of_all_ws _ hws
  unfold translatePrompt _translate
  rw [hsrc]
  simp [hstrip]
  rfl

/-- C8 witness: feedback `" \t "` yields the first-pass prompt. -/
theorem C8_whitespace_feedback_first_pass_witness :
    (sW8.evaluation_feedback.getD "").data.all isPyWs = true ∧
    (translatePrompt sW8 "French" = some (translateUserContent "hi" "French" "") ∧
     _translate sW8 "French" (oRej.trans 0) =
       _translate { sW8 with evaluation_feedback := none } "French" (oRej.trans 0) ∧
     _translate sW8 "French" (oRej.trans 0) =
       some { translation := some (pyStrip (oRej.trans 0 (translateUserContent "hi" "French" "")))
              attempts := some (sW8.attempts.getD 0 + 1) }) :=
  ⟨rfl, C8_whitespace_feedback_first_pass sW8 "hi" "French" (oRej.trans 0) rfl rfl⟩

/-- C9: a Translator step's update dict carries exactly the `translation` and
`attempts` keys, so merging it leaves `query`, `source_text`, `target_lang`,
`max_attempts`, `evaluation_ok` and `evaluation_feedback` unchanged, while
`translation` is freshly set and `attempts` is incremented by one. -/
theorem C9_translate_frame (s u : TranslationState) (tl : String) (f : String → String)
    (hu : _translate s tl f = some u) :
    u.query = none ∧ u.source_text = none ∧ u.target_lang = none ∧
    u.evaluation_ok = none ∧ u.evaluation_feedback = none ∧ u.max_attempts = none ∧
    u.translation.isSome = true ∧ u.attempts = some (s.attempts.getD 0 + 1) ∧
    (mergeState s u).query = s.query ∧ (mergeState s u).source_text = s.source_text ∧
    (mergeState s u).target_lang = s.target_lang ∧
    (mergeState s u).evaluation_ok = s.evaluation_ok ∧
    (mergeState s u).evaluation_feedback = s.evaluation_feedback ∧
    (mergeState s u).max_attempts = s.max_attempts := by
  unfold _translate at hu
  cases hsrc : s.source_text with
  | none => rw [hsrc] at hu; simp at hu
  | some src =>
    rw [hsrc] at hu
    simp only [Option.some.injEq] at hu
    subst hu
    exact ⟨rfl, rfl, rfl, rfl, rfl, rfl, rfl, rfl, rfl, hsrc, rfl, rfl, rfl, rfl⟩

/-- C9 witness: the first Translator step of the `sIni` session. -/
theorem C9_translate_frame_witness :
    _translate sIni "French" (oRej.trans 0) = some uW1 ∧
    (uW1.query = none ∧ uW1.source_text = none ∧ uW1.target_lang = none ∧
     uW1.evaluation_ok = none ∧ uW1.evaluation_feedback = none ∧ uW1.max_attempts = none ∧
     uW1.translation.isSome = true ∧ uW1.attempts = some (sIni.attempts.getD 0 + 1) ∧
     (mergeState sIni uW1).query = sIni.query ∧
     (mergeState sIni uW1).source_text = sIni.source_text ∧
     (mergeState sIni uW1).target_lang = sIni.target_lang ∧
     (mergeState sIni uW1).evaluation_ok = sIni.evaluation_ok ∧
     (mergeState sIni uW1).evaluation_feedback = sIni.evaluation_feedback ∧
     (mergeState sIni uW1).max_attempts = sIni.max_attempts) :=
  ⟨rfl, C9_translate_frame sIni uW1 "French" (oRej.trans 0) rfl⟩

/-- C2 counterexample: the evaluator response `{"ok": "no", "feedback": "bad"}`
parses fine but its acceptance flag is not a boolean; the code coerces the
truthy string to `ok = True` instead of synthesizing a parse-failure
rejection, refuting the claim that such a response yields `ok = false` with
feedback describing the failure. -/
theorem C2_nonbool_flag_counterexample :
    eval_node sW "\x7b\"ok\": \"no\", \"feedback\": \"bad\"\x7d"
      (some (PyJson.obj [("ok", PyJson.str "no"), ("feedback", PyJson.str "bad")])) =
      some uC2 ∧
    uC2.evaluation_ok ≠ some false ∧
    strContains (uC2.evaluation_feedback.getD "") "Evaluator output was not valid JSON" = false :=
  ⟨rfl, by decide, rfl⟩

/-- C2 (amended): whenever the `except` branch actually runs — `json.loads`
raised on a non-JSON response, or the parse produced a non-dict so that
`data.get` raised — `eval_node` does not propagate the exception: it returns
`ok = false` with the parse-failure message embedding the raw (stripped)
response text.  A parsed dict whose `ok` value is not a boolean is NOT a
parse failure: `bool()` coerces it by truthiness (see the counterexample). -/
theorem C2_parse_failure_recovery (s : TranslationState) (raw : String)
    (parsed : Option PyJson)
    (h1 : s.source_text.isSome = true) (h2 : s.target_lang.isSome = true)
    (h3 : s.translation.isSome = true) (hp : notTopObj parsed = true) :
    eval_node s raw parsed =
      some { evaluation_ok := some false
             evaluation_feedback :=
               some ("Evaluator output was not valid JSON: " ++ pyStrip raw) } ∧
    strContains ("Evaluator output was not valid JSON: " ++ pyStrip raw) (pyStrip raw) = true := by
  rcases Option.isSome_iff_exists.mp h1 with ⟨src, hsrc⟩
  rcases Option.isSome_iff_exists.mp h2 with ⟨tl, htl⟩
  rcases Option.isSome_iff_exists.mp h3 with ⟨tr, htr⟩
  constructor
  · unfold eval_node
    rw [hsrc, htl, htr]
    have : evalVerdict parsed = false ∧
        evalFeedback (pyStrip raw) parsed = "Evaluator output was not valid JSON: " ++ pyStrip raw := by
      cases parsed with
      | none => exact ⟨rfl, rfl⟩
      | some v => cases v <;> simp [notTopObj] at hp ⊢ <;> exact ⟨rfl, rfl⟩
    simp only [this.1, this.2]
  · exact strContains_append_self _ _

/-- C2 witness: a response that is not valid JSON. -/
theorem C2_parse_failure_recovery_witness :
    notTopObj none = true ∧
    (eval_node sW "  oops, not json  " none =
      some { evaluation_ok := some false
             evaluation_feedback :=
               some ("Evaluator output was not valid JSON: " ++ pyStrip "  oops, not json  ") } ∧
     strContains ("Evaluator output was not valid JSON: " ++ pyStrip "  oops, not json  ")
       (pyStrip "  oops, not json  ") = true) :=
  ⟨rfl, C2_parse_failure_recovery sW "  oops, not json  " none rfl rfl rfl rfl⟩

/-- C3 counterexample: on the parsed response `{"ok": true, "feedback": "nice"}`
the Evaluator step produces `evaluation_ok = true` with the non-empty
feedback `"nice"`: the code never clears feedback on acceptance, refuting
the claim that `evaluation_ok = true` forces empty feedback. -/
theorem C3_accept_nonempty_feedback_counterexample :
    eval_node sW "\x7b\"ok\": true, \"feedback\": \"nice\"\x7d"
      (some (PyJson.obj [("ok", PyJson.bool true), ("feedback", PyJson.str "nice")])) =
      some uC3 ∧
    (mergeState sW uC3).evaluation_ok = some true ∧
    (mergeState sW uC3).evaluation_feedback ≠ some "" :=
  ⟨rfl, rfl, by decide⟩

/-- C3 (amended): an Evaluator step on a parsed dict sets
`evaluation_feedback` to the stripped `feedback` field of the response
(default `""`), independently of the acceptance verdict; so with
`evaluation_ok = true` the feedback is empty exactly when the model's
feedback field strips to empty, not unconditionally. -/
theorem C3_feedback_passthrough (s : TranslationState) (raw : String)
    (kvs : List (String × PyJson))
    (h1 : s.source_text.isSome = true) (h2 : s.target_lang.isSome = true)
    (h3 : s.translation.isSome = true) :
    eval_node s raw (some (PyJson.obj kvs)) =
      some { evaluation_ok := some (pyBool ((jsonGet "ok" kvs).getD (PyJson.bool false)))
             evaluation_feedback :=
               some (pyStrip (pyStr ((jsonGet "feedback" kvs).getD (PyJson.str "")))) } ∧
    (mergeState s
        { evaluation_ok := some (pyBool ((jsonGet "ok" kvs).getD (PyJson.bool false)))
          evaluation_feedback :=
            some (pyStrip (pyStr ((jsonGet "feedback" kvs).getD (PyJson.str "")))) }
      ).evaluation_feedback =
      some (pyStrip (pyStr ((jsonGet "feedback" kvs).getD (PyJson.str "")))) := by
  rcases Option.isSome_iff_exists.mp h1 with ⟨src, hsrc⟩
  rcases Option.isSome_iff_exists.mp h2 with ⟨tl, htl⟩
  rcases Option.isSome_iff_exists.mp h3 with ⟨tr, htr⟩
  constructor
  · unfold eval_node
    rw [hsrc, htl, htr]
    rfl
  · rfl

/-- C3 witness: an accepting verdict whose feedback field strips to
`"great"`. -/
theorem C3_feedback_passthrough_witness :
    eval_node sW "x" (some (PyJson.obj [("ok", PyJson.bool true), ("feedback", PyJson.str " great ")])) =
      some { evaluation_ok :=
               some (pyBool ((jsonGet "ok" [("ok", PyJson.bool true), ("feedback", PyJson.str " great ")]).getD (PyJson.bool false)))
             evaluation_feedback :=
               some (pyStrip (pyStr ((jsonGet "feedback" [("ok", PyJson.bool true), ("feedback", PyJson.str " great ")]).getD (PyJson.str "")))) } ∧
    (mergeState sW
        { evaluation_ok :=
            some (pyBool ((jsonGet "ok" [("ok", PyJson.bool true), ("feedback", PyJson.str " great ")]).getD (PyJson.bool false)))
          evaluation_feedback :=
            some (pyStrip (pyStr ((jsonGet "feedback" [("ok", PyJson.bool true), ("feedback", PyJson.str " great ")]).getD (PyJson.str "")))) }
      ).evaluation_feedback =
      some (pyStrip (pyStr ((jsonGet "feedback" [("ok", PyJson.bool true), ("feedback", PyJson.str " great ")]).getD (PyJson.str "")))) :=
  C3_feedback_passthrough sW "x" [("ok", PyJson.bool true), ("feedback", PyJson.str " great ")] rfl rfl rfl

/-- C6: after a rejecting, non-exhausted eval step the router returns the
state's unchanged `target_lang` (the code chosen at intent: Translator and
Evaluator updates never touch it), and the merged state's feedback is exactly
the verdict just produced — the old stored feedback is overwritten — so the
next Translator call builds its prompt from precisely that latest feedback. -/
theorem C6_reroute_with_latest_feedback
    (s u1 u2 : TranslationState) (lang label rawEv : String)
    (f : String → String) (parsed : Option PyJson) (a M : Int)
    (hlang : s.target_lang = some lang)
    (_hlabel : nodeLabel lang = some label)
    (hsrc : s.source_text.isSome = true)
    (ha : s.attempts = some a)
    (hM : s.max_attempts = some M)
    (h1 : _translate s label f = some u1)
    (h2 : eval_node (mergeState s u1) rawEv parsed = some u2)
    (hrej : evalVerdict parsed = false)
    (hlt : a + 1 < M) :
    route_after_eval (mergeState (mergeState s u1) u2) = some lang ∧
    (mergeState (mergeState s u1) u2).target_lang = s.target_lang ∧
    (mergeState (mergeState s u1) u2).evaluation_feedback =
      some (evalFeedback (pyStrip rawEv) parsed) ∧
    translatePrompt (mergeState (mergeState s u1) u2) label =
      some (translateUserContent (s.source_text.getD "") label
        (pyStrip (evalFeedback (pyStrip rawEv) parsed))) := by
  rcases Option.isSome_iff_exists.mp hsrc with ⟨src, hsrc'⟩
  unfold _translate at h1
  rw [hsrc'] at h1
  simp only [Option.some.injEq] at h1
  subst h1
  unfold eval_node at h2
  simp only [mergeState, hsrc', hlang] at h2
  simp only [Option.some.injEq] at h2
  subst h2
  refine ⟨?_, rfl, rfl, ?_⟩
  · unfold route_after_eval
    simp only [mergeState, hrej, ha, hlang]
    have hnot : ¬ (M ≤ a + 1) := not_le.mpr hlt
    simp [hnot, ha, hM, hlang]
  · unfold translatePrompt
    simp [mergeState, hsrc']

/-- C6 witness: a rejected first attempt of the `sC6` session (stored stale
feedback `"old stale"`) re-routes to `fr` and the next prompt carries the
fresh `"fix tone"` feedback. -/
theorem C6_reroute_with_latest_feedback_witness :
    evalVerdict (oRej.evalParsed 0) = false ∧
    (route_after_eval (mergeState (mergeState sC6 u1C6) u2C6) = some "fr" ∧
     (mergeState (mergeState sC6 u1C6) u2C6).target_lang = sC6.target_lang ∧
     (mergeState (mergeState sC6 u1C6) u2C6).evaluation_feedback =
       some (evalFeedback (pyStrip (oRej.evalRaw 0)) (oRej.evalParsed 0)) ∧
     translatePrompt (mergeState (mergeState sC6 u1C6) u2C6) "French" =
       some (translateUserContent (sC6.source_text.getD "") "French"
         (pyStrip (evalFeedback (pyStrip (oRej.evalRaw 0)) (oRej.evalParsed 0))))) :=
  ⟨rfl, C6_reroute_with_latest_feedback sC6 u1C6 u2C6 "fr" "French" (oRej.evalRaw 0)
    (oRej.trans 0) (oRej.evalParsed 0) 0 3 rfl rfl rfl rfl rfl rfl rfl rfl (by decide)⟩

/-- One successful cycle increments `attempts` by exactly one, overwrites the
verdict with the one computed from this cycle's parsed evaluator response,
and leaves `target_lang`, `source_text` and `max_attempts` unchanged; its
language code was found in the routing table. -/
theorem runCycle_fields (o : Oracle) (k : Nat) (s s2 : TranslationState) (a M : Int)
    (ha : s.attempts = some a) (hM : s.max_attempts = some M)
    (h : runCycle o k s = some s2) :
    s2.attempts = some (a + 1) ∧ s2.max_attempts = some M ∧
    s2.evaluation_ok = some (evalVerdict (o.evalParsed k)) ∧
    s2.target_lang = s.target_lang ∧ s2.source_text = s.source_text ∧
    ∃ code, s.target_lang = some code ∧ (nodeLabel code).isSome = true := by
  cases htl : s.target_lang with
  | none => simp [runCycle, htl] at h
  | some code =>
    cases hlb : nodeLabel code with
    | none => simp [runCycle, htl, hlb] at h
    | some label =>
      cases hsrc : s.source_text with
      | none => simp [runCycle, _translate, htl, hlb, hsrc] at h
      | some src =>
        unfold runCycle _translate eval_node at h
        simp only [htl, hlb, hsrc, mergeState, ha, Option.getD_some, Option.some.injEq] at h
        subst h
        refine ⟨by simp [mergeState], by simp [mergeState, hM], by simp [mergeState],
          by simp [mergeState, htl], by simp [mergeState, hsrc], code, rfl, by simp [hlb]⟩

/-- Loop invariant of `runLoop`: a completed run of `n` cycles starting with
`attempts = a` ends with `attempts = a + n`, carries `max_attempts`
unchanged, ends with the verdict of its last cycle, stops only on an
accepting verdict or on `attempts` reaching `max_attempts`, and before its
last cycle every verdict was rejecting with `attempts` still below
`max_attempts`. -/
theorem runLoop_spec (o : Oracle) :
    ∀ (fuel k : Nat) (s t : TranslationState) (n : Nat) (a M : Int),
      s.attempts = some a → s.max_attempts = some M →
      runLoop o fuel k s = some (t, n) →
      1 ≤ n ∧ t.attempts = some (a + n) ∧ t.max_attempts = some M ∧
      t.evaluation_ok = some (evalVerdict (o.evalParsed (k + n - 1))) ∧
      (evalVerdict (o.evalParsed (k + n - 1)) = true ∨ M ≤ a + n) ∧
      (∀ j : Nat, j + 1 < n → evalVerdict (o.evalParsed (k + j)) = false ∧ a + j + 1 < M) := by
  intro fuel
  induction fuel with
  | zero =>
    intro k s t n a M ha hM h
    simp [runLoop] at h
  | succ fuel ih =>
    intro k s t n a M ha hM h
    unfold runLoop at h
    cases hc : runCycle o k s with
    | none => simp [hc] at h
    | some s2 =>
      simp only [hc] at h
      obtain ⟨ha2, hM2, hok2, htl2, _hsrc2, code, hcode, hlb⟩ :=
        runCycle_fields o k s s2 a M ha hM hc
      cases hr : route_after_eval s2 with
      | none => simp [hr] at h
      | some r =>
        simp only [hr] at h
        by_cases hend : r = "end"
        · rw [if_pos hend] at h
          injection h with h
          injection h with ht hn
          subst ht
          subst hn
          have hidx : k + 1 - 1 = k := by omega
          rw [hidx]
          subst hend
          refine ⟨le_refl 1, by rw [ha2]; norm_num, hM2, hok2, ?_, ?_⟩
          · simp only [route_after_eval, ha2, hM2, hok2, Option.getD_some] at hr
            split at hr
            · rename_i hv
              exact Or.inl hv
            · split at hr
              · rename_i hm
                refine Or.inr ?_
                push_cast
                linarith
              · rw [htl2, hcode] at hr
                injection hr with hr'
                subst hr'
                simp [nodeLabel] at hlb
          · intro j hj
            omega
        · rw [if_neg hend] at h
          cases hrec : runLoop o fuel (k + 1) s2 with
          | none => simp [hrec] at h
          | some p =>
            obtain ⟨t', m⟩ := p
            simp only [hrec] at h
            injection h with h
            injection h with ht hn
            subst ht
            subst hn
            have hcont : evalVerdict (o.evalParsed k) = false ∧ a + 1 < M := by
              simp only [route_after_eval, ha2, hM2, hok2, Option.getD_some] at hr
              split at hr
              · injection hr with hr'
                exact absurd hr'.symm hend
              · split at hr
                · injection hr with hr'
                  exact absurd hr'.symm hend
                · rename_i hv hm
                  exact ⟨by simpa using hv, not_le.mp hm⟩
            obtain ⟨hvf, hlt⟩ := hcont
            obtain ⟨ih1, ih2, ih3, ih4, ih5, ih6⟩ :=
              ih (k + 1) s2 t' m (a + 1) M ha2 hM2 hrec
            have hidx : k + 1 + m - 1 = k + (m + 1) - 1 := by omega
            rw [hidx] at ih4 ih5
            refine ⟨by omega, ?_, ih3, ih4, ?_, ?_⟩
            · rw [ih2]
              congr 1
              push_cast
              ring
            · rcases ih5 with h5 | h5
              · exact Or.inl h5
              · refine Or.inr ?_
                push_cast at h5 ⊢
                linarith
            · intro j hj
              cases j with
              | zero =>
                refine ⟨hvf, ?_⟩
                push_cast
                linarith
              | succ j' =>
                have hj' : j' + 1 < m := by omega
                obtain ⟨hja, hjb⟩ := ih6 j' hj'
                constructor
                · have hk : k + 1 + j' = k + (j' + 1) := by omega
                  rw [hk] at hja
                  exact hja
                · push_cast at hjb ⊢
                  linarith

/-- C1 counterexample: with `max_attempts = 0` the compiled graph still runs
one unconditional translate→eval cycle before `route_after_eval` first
checks the counter, so this session performs 1 Translator invocation,
exceeding its configured `max_attempts` of 0 — refuting "for every
configured max_attempts the number of Translator invocations never exceeds
max_attempts". -/
theorem C1_max_attempts_zero_counterexample :
    runLoop oRej 2 0 sC1 = some (tC1, 1) ∧ sC1.max_attempts = some 0 ∧
    tC1.attempts = some 1 ∧ ¬ ((1 : Int) ≤ 0) :=
  ⟨rfl, rfl, rfl, by decide⟩

/-- C1 (amended): in a session started with `attempts = 0`, the attempt
counter equals the number of completed translate→eval cycles; the loop
stops only at an accepting verdict or once `attempts` reaches
`max_attempts`, every verdict before the last being rejecting (first
acceptance wins); and for every configured `max_attempts ≥ 1` the number of
Translator invocations never exceeds `max_attempts` — one full cycle always
runs, so a session with `max_attempts ≤ 0` performs exactly one invocation
(see the counterexample). -/
theorem C1_loop_bound (o : Oracle) (fuel n : Nat) (s t : TranslationState) (M : Int)
    (ha : s.attempts = some 0) (hM : s.max_attempts = some M)
    (h : runLoop o fuel 0 s = some (t, n)) :
    t.attempts = some (n : Int) ∧
    (t.evaluation_ok = some true ∨ M ≤ (n : Int)) ∧
    (∀ j : Nat, j + 1 < n → evalVerdict (o.evalParsed j) = false) ∧
    (1 ≤ M → (n : Int) ≤ M) ∧ 1 ≤ n := by
  obtain ⟨h1, h2, h3, h4, h5, h6⟩ := runLoop_spec o fuel 0 s t n 0 M ha hM h
  refine ⟨by simpa using h2, ?_, ?_, ?_, h1⟩
  · rcases h5 with hv | hv
    · rw [hv] at h4
      exact Or.inl h4
    · right
      simpa using hv
  · intro j hj
    have hjf := (h6 j hj).1
    simpa using hjf
  · intro hM1
    by_cases hn2 : 2 ≤ n
    · have hb := (h6 (n - 2) (by omega)).2
      omega
    · have hn1 : n = 1 := by omega
      subst hn1
      simpa using hM1

/-- C1 witness: the always-rejecting session with `max_attempts = 3` runs
exactly 3 cycles, ends with `attempts = 3`, and stays within the bound. -/
theorem C1_loop_bound_witness :
    runLoop oRej 5 0 sIni = some (tW1, 3) ∧
    tW1.attempts = some ((3 : Nat) : Int) ∧
    evalVerdict (oRej.evalParsed 0) = false ∧
    ((3 : Nat) : Int) ≤ 3 :=
  ⟨rfl, (C1_loop_bound oRej 5 3 sIni tW1 3 rfl rfl rfl).1,
    (C1_loop_bound oRej 5 3 sIni tW1 3 rfl rfl rfl).2.2.1 0 (by omega),
    (C1_loop_bound oRej 5 3 sIni tW1 3 rfl rfl rfl).2.2.2.1 (by norm_num)⟩
